import Mathlib

/-!
Shallow embedding of the qudi TaskRunner (src/qudi/logic/taskrunner.py).

The TaskRunner keeps a dict of running ModuleTask instances keyed by task
name, a dict of configured task types built by on_activate, a diagnostic
log, and emits Qt signals (modelled below as Event values).  All mutating
operations run under a single mutex (self._thread_lock); the queued slot
_run_task executes the start sequence, and the callbacks
_task_finished_callback and _thread_finished_callback execute the
completion sequence.  Lock usage and the primitive steps of the completion
callbacks are recorded as Action traces so that ordering properties can be
stated.  Python dicts are modelled as association lists keyed by String;
opaque Python objects (task results, argument elements, module instances)
are modelled as Nat or String values.
-/

namespace Taskrunner

/-- A Python dict key: either a str or some other hashable value
(the key-type check in TaskRunner.__set_task_arguments distinguishes
exactly these two cases). -/
inductive Key where
  | str (s : String)
  | other (n : Nat)
  deriving DecidableEq

/-- The args object passed to TaskRunner.run_task: the call tuple(args)
succeeds exactly when args is iterable and raises TypeError otherwise. -/
inductive PyArgs where
  | iterable (xs : List Nat)
  | notIterable
  deriving DecidableEq

/-- The kwargs object passed to TaskRunner.run_task: the call dict(kwargs)
succeeds exactly when kwargs is a mapping and raises TypeError otherwise. -/
inductive PyKwargs where
  | mapping (entries : List (Key × Nat))
  | notMapping
  deriving DecidableEq

/-- One error constructor per raise site in taskrunner.py.  The source uses
RuntimeError, KeyError and TypeError with distinct messages; the spec names
them AlreadyRunningError, UnknownTaskError, ArgumentError, NotRunningError,
ConfigurationError, ConnectionError and HostError. -/
inductive RunnerError where
  | alreadyRunning (name : String)
  | unknownTask (name : String)
  | argsNotIterable
  | kwargsNotMapping
  | kwargsKeysNotStr
  | notRunning (name : String)
  | duplicateTaskName (name : String)
  | importFailure (name : String)
  | notModuleTaskSubclass (name : String)
  | connectionError (moduleName : String)
  | threadCreationFailure (name : String)
  deriving DecidableEq

/-- A ModuleTask instance as seen by the TaskRunner: set arguments, the
modules bound by connect_modules, whether the runner signals are connected,
whether the task was moved into a thread, the interrupt flag, and the final
result and success flag exposed after the run. -/
structure Task where
  args : List Nat := []
  kwargs : List (Key × Nat) := []
  connectedModules : List (String × String) := []
  signalsConnected : Bool := false
  hasThread : Bool := false
  interruptRequested : Bool := false
  result : Nat := 0
  success : Bool := false
  deriving DecidableEq

/-- A configured task type resolved by import_module_script; isModuleTask
records the result of the issubclass(task, ModuleTask) check. -/
structure TaskType where
  isModuleTask : Bool
  deriving DecidableEq

/-- Observer channel events: the public TaskRunner signals sigTaskStarted,
sigTaskStateChanged and sigTaskFinished. -/
inductive Event where
  | taskStarted (name : String)
  | taskStateChanged (name : String) (state : String)
  | taskFinished (name : String) (result : Nat) (success : Bool)
  deriving DecidableEq

/-- Primitive steps of the completion callbacks, lock usage included, in the
order the source executes them. -/
inductive Action where
  | acquireLock
  | releaseLock
  | disconnectSignals (name : String)
  | disconnectModules (name : String)
  | quitThread (name : String)
  | joinThread (name : String)
  | removeEntry (name : String)
  | emitFinished (name : String) (result : Nat) (success : Bool)
  deriving DecidableEq

/-- Mutable TaskRunner state: self._running_tasks, self._configured_task_types,
the diagnostic log sink (self.log.exception calls), and the list of external
modules activated so far (a module manager side effect, recorded so that it
can be observed whether resource connection was attempted). -/
structure RunnerState where
  runningTasks : List (String × Task) := []
  configuredTaskTypes : List (String × TaskType) := []
  log : List RunnerError := []
  activatedModules : List String := []
  deriving DecidableEq

/-- External collaborators of the start sequence: the module manager (some
instance when lookup and activation succeed, none when either raises), the
connect section of self._module_task_configs for each name, and whether
thread_manager.get_new_thread returns a thread. -/
structure Env where
  moduleManager : String → Option String
  connectSpec : String → List (String × String)
  threadAvailable : Bool

/-- Python dict lookup d.get(name) on an association list. -/
def lookupName {β : Type} (name : String) : List (String × β) → Option β
  | [] => none
  | (n, b) :: rest => if n = name then some b else lookupName name rest

/-- Python dict pop(name, None) restricted to the removal effect. -/
def removeName {β : Type} (name : String) : List (String × β) → List (String × β)
  | [] => []
  | (n, b) :: rest =>
      if n = name then removeName name rest else (n, b) :: removeName name rest

/-- In-place mutation of the entry stored under an existing key (the Python
task objects are mutated through the reference held in the dict). -/
def updateName {β : Type} (name : String) (b : β) : List (String × β) → List (String × β)
  | [] => []
  | (n, b0) :: rest =>
      if n = name then (n, b) :: updateName name b rest
      else (n, b0) :: updateName name b rest

/-- TaskRunner.run_task: under the lock, evaluates tuple(args) and
dict(kwargs) and emits the queued start request _sigStartTask.  tuple raises
TypeError on a non-iterable args and dict raises TypeError on a non-mapping
kwargs; both propagate synchronously to the caller.  No shared state is
touched; on success the queued request (name, tuple, dict) is returned. -/
def run_task (name : String) (args : PyArgs) (kwargs : PyKwargs) :
    Except RunnerError (String × List Nat × List (Key × Nat)) :=
  match args with
  | .notIterable => .error .argsNotIterable
  | .iterable xs =>
    match kwargs with
    | .notMapping => .error .kwargsNotMapping
    | .mapping entries => .ok (name, xs, entries)

/-- TaskRunner.interrupt_task: under the lock, looks the name up in
self._running_tasks; raises RuntimeError (NotRunningError) when absent and
otherwise calls task.interrupt() on the stored instance. -/
def interrupt_task (s : RunnerState) (name : String) : RunnerState × Option RunnerError :=
  match lookupName name s.runningTasks with
  | none => (s, some (.notRunning name))
  | some task =>
      let poked := { task with interruptRequested := true }
      ({ s with runningTasks := updateName name poked s.runningTasks }, none)

/-- TaskRunner.__init_task: raises RuntimeError (AlreadyRunningError) when the
name is already in self._running_tasks, then instantiates
self._configured_task_types[name] (KeyError, UnknownTaskError, when the name
is not configured).  The surrounding try block logs and re-raises; logging is
performed by the caller run_task_slot below. -/
def init_task (s : RunnerState) (name : String) : Except RunnerError Task :=
  if (lookupName name s.runningTasks).isSome then .error (.alreadyRunning name)
  else
    match lookupName name s.configuredTaskTypes with
    | none => .error (.unknownTask name)
    | some _ => .ok {}

/-- Keys of the dict passed as kwargs are all str (the check
all(isinstance(kw, str) for kw in kwargs)). -/
def allStrKeys (entries : List (Key × Nat)) : Bool :=
  entries.all fun e => match e.1 with | .str _ => true | .other _ => false

/-- TaskRunner.__set_task_arguments: args arrives as the tuple built by
run_task and is therefore always Iterable, so only the str-key check on
kwargs can raise (TypeError, ArgumentError).  On success the arguments are
stored on the task instance; on failure the task is returned unchanged
together with the error. -/
def set_task_arguments (task : Task) (args : List Nat) (kwargs : List (Key × Nat)) :
    Task × Option RunnerError :=
  if allStrKeys kwargs then ({ task with args := args, kwargs := kwargs }, none)
  else (task, some .kwargsKeysNotStr)

/-- The for loop of TaskRunner.__activate_connect_task_modules: for each
(conn_name, module_name) of the connect spec, looks the module up in the
module manager and activates it, accumulating connect_targets.  Returns the
built targets, the modules activated in order, and the first failing module
name when the loop raised. -/
def connect_loop (mm : String → Option String) :
    List (String × String) → List (String × String) × List String × Option String
  | [] => ([], [], none)
  | (connName, moduleName) :: rest =>
      match mm moduleName with
      | none => ([], [], some moduleName)
      | some inst =>
          let r := connect_loop mm rest
          ((connName, inst) :: r.1, moduleName :: r.2.1, r.2.2)

/-- TaskRunner.__activate_connect_task_modules: runs the connect loop and on
success binds the targets via task.connect_modules; on any failure the
except block logs, calls task.disconnect_modules() (so the task holds no
bound modules) and re-raises.  Returns the task afterwards, the modules that
were activated, and the propagated error. -/
def activate_connect_task_modules (env : Env) (name : String) (task : Task) :
    Task × List String × Option RunnerError :=
  match connect_loop env.moduleManager (env.connectSpec name) with
  | (_, acts, some m) =>
      ({ task with connectedModules := [] }, acts, some (.connectionError m))
  | (targets, acts, none) =>
      ({ task with connectedModules := targets }, acts, none)

/-- TaskRunner.__move_task_into_thread: thread_manager.get_new_thread may
fail (RuntimeError, HostError); otherwise the task is moved into the new
thread and the thread start and finished signals are wired. -/
def move_task_into_thread (env : Env) (name : String) (task : Task) :
    Task × Option RunnerError :=
  if env.threadAvailable then ({ task with hasThread := true }, none)
  else (task, some (.threadCreationFailure name))

/-- TaskRunner.__connect_task_signals: connects sigFinished and
sigStateChanged of the task to the runner callbacks (queued). -/
def connect_task_signals (task : Task) : Task :=
  { task with signalsConnected := true }

/-- TaskRunner.__start_task: records the RunningTaskEntry in
self._running_tasks and starts the thread.  The name is new here because
__init_task already rejected a running name under the same lock hold. -/
def start_task (s : RunnerState) (name : String) (task : Task) : RunnerState :=
  { s with runningTasks := (name, task) :: s.runningTasks }

/-- TaskRunner._run_task: the queued slot executing the whole start sequence
under the lock.  Each failing helper logs its exception and re-raises, so the
slot stops at the first error with no RunningTaskEntry recorded and no event
emitted; module activations performed before a connection failure persist.
On success the entry is recorded and sigTaskStarted is emitted last.
Returns (state, emitted events, propagated error). -/
def run_task_slot (env : Env) (s : RunnerState) (name : String)
    (args : List Nat) (kwargs : List (Key × Nat)) :
    RunnerState × List Event × Option RunnerError :=
  match init_task s name with
  | .error e => ({ s with log := e :: s.log }, [], some e)
  | .ok task0 =>
    match set_task_arguments task0 args kwargs with
    | (_, some e) => ({ s with log := e :: s.log }, [], some e)
    | (task1, none) =>
      match activate_connect_task_modules env name task1 with
      | (_, acts, some e) =>
          ({ s with log := e :: s.log,
                    activatedModules := s.activatedModules ++ acts }, [], some e)
      | (task2, acts, none) =>
        let s1 := { s with activatedModules := s.activatedModules ++ acts }
        match move_task_into_thread env name task2 with
        | (_, some e) => ({ s1 with log := e :: s1.log }, [], some e)
        | (task3, none) =>
            (start_task s1 name (connect_task_signals task3),
             [.taskStarted name], none)

/-- TaskRunner._task_finished_callback: under the lock, gets the task from
self._running_tasks; when absent it does nothing.  When present it
disconnects the task signals, calls task.disconnect_modules(), then quits
and joins the task thread, all before the lock is released.  The entry is
not removed here. -/
def task_finished_callback (s : RunnerState) (name : String) :
    RunnerState × List Action :=
  match lookupName name s.runningTasks with
  | none => (s, [.acquireLock, .releaseLock])
  | some task =>
      let cleaned := { task with signalsConnected := false, connectedModules := [] }
      ({ s with runningTasks := updateName name cleaned s.runningTasks },
       [.acquireLock, .disconnectSignals name, .disconnectModules name,
        .quitThread name, .joinThread name, .releaseLock])

/-- TaskRunner._thread_finished_callback: under the lock, pops the entry from
self._running_tasks; when it was present, emits sigTaskFinished with the
task result and success flag, strictly after the removal. -/
def thread_finished_callback (s : RunnerState) (name : String) :
    RunnerState × List Action :=
  match lookupName name s.runningTasks with
  | none => (s, [.acquireLock, .releaseLock])
  | some task =>
      ({ s with runningTasks := removeName name s.runningTasks },
       [.acquireLock, .removeEntry name,
        .emitFinished name task.result task.success, .releaseLock])

/-- TaskRunner._task_state_changed_callback: re-emits the received state on
sigTaskStateChanged tagged with the task name bound at connect time. -/
def task_state_changed_callback (state : String) (name : String) : List Event :=
  [.taskStateChanged name state]

/-- The completion sequence of one run: the task sigFinished triggers
_task_finished_callback, whose quit and join make the thread finish, which
triggers _thread_finished_callback. -/
def completion_sequence (s : RunnerState) (name : String) :
    RunnerState × List Action :=
  let r1 := task_finished_callback s name
  let r2 := thread_finished_callback r1.1 name
  (r2.1, r1.2 ++ r2.2)

/-- Lock balance contribution of one action. -/
def lockDelta : Action → Int
  | .acquireLock => 1
  | .releaseLock => -1
  | _ => 0

/-- Number of locks held just before the action at position i of a trace. -/
def lockDepthAt (tr : List Action) (i : Nat) : Int :=
  ((tr.take i).map lockDelta).sum

/-- Recognizes the sigTaskFinished emission among completion actions. -/
def isEmitFinished : Action → Bool
  | .emitFinished _ _ _ => true
  | _ => false

/-- The loop body of TaskRunner.on_activate: walks the configured task
definitions in order, rejecting a name already present in the accumulated
dict (KeyError, duplicate), a failed import_module_script resolution, and a
resolved type that is not a ModuleTask subclass (TypeError). -/
def on_activate_loop (acc : List (String × TaskType)) :
    List (String × Option TaskType) → Except RunnerError (List (String × TaskType))
  | [] => .ok acc
  | (name, res) :: rest =>
      if (lookupName name acc).isSome then .error (.duplicateTaskName name)
      else
        match res with
        | none => .error (.importFailure name)
        | some tt =>
            if tt.isModuleTask then on_activate_loop (acc ++ [(name, tt)]) rest
            else .error (.notModuleTaskSubclass name)

/-- TaskRunner.on_activate: builds self._configured_task_types from the
module_tasks config.  Each config entry carries the resolution result of
import_module_script for its type identifier (none when the import raises). -/
def on_activate (configs : List (String × Option TaskType)) :
    Except RunnerError (List (String × TaskType)) :=
  on_activate_loop [] configs

/-- A verified configured task type (issubclass check passed). -/
def ttOk : TaskType := { isModuleTask := true }

/-- A sample live ModuleTask instance with a definite result and success flag. -/
def taskEx : Task := { result := 7, success := true }

/-- Sample collaborators: one module for task t, always able to create threads. -/
def envOk : Env :=
  { moduleManager := fun m => if m = "mod1" then some "inst1" else none,
    connectSpec := fun n => if n = "t" then [("conn1", "mod1")] else [],
    threadAvailable := true }

/-- Collaborators for the partial-connection scenario: task c declares three
modules and the module manager fails on the second one. -/
def envC5 : Env :=
  { moduleManager := fun m => if m = "m1" then some "i1" else none,
    connectSpec := fun n => if n = "c" then [("r1", "m1"), ("r2", "m2"), ("r3", "m3")] else [],
    threadAvailable := true }

/-- Idle runner state: tasks t and c configured, nothing running. -/
def sIdle : RunnerState :=
  { runningTasks := [], configuredTaskTypes := [("t", ttOk), ("c", ttOk)],
    log := [], activatedModules := [] }

/-- Runner state with task t currently running. -/
def sRun : RunnerState :=
  { runningTasks := [("t", taskEx)], configuredTaskTypes := [("t", ttOk)],
    log := [], activatedModules := [] }

/-- Runner state with task u currently running. -/
def sRun2 : RunnerState :=
  { runningTasks := [("u", { taskEx with result := 3 })],
    configuredTaskTypes := [("u", ttOk)], log := [], activatedModules := [] }

/-- A sample configuration with two distinct names resolving to verified types. -/
def cfgEx : List (String × Option TaskType) := [("a", some ttOk), ("b", some ttOk)]

theorem lookupName_isSome_iff {β : Type} (name : String) (l : List (String × β)) :
    (lookupName name l).isSome = true ↔ name ∈ l.map Prod.fst := by
  induction l with
  | nil => simp [lookupName]
  | cons hd tl ih =>
      obtain ⟨n, b⟩ := hd
      by_cases hn : n = name
      · subst hn
        simp [lookupName]
      · have hn2 : ¬ name = n := fun he => hn he.symm
        simp [lookupName, hn, hn2, ih]

theorem lookupName_updateName {β : Type} (name : String) (b x : β)
    (l : List (String × β)) (h : lookupName name l = some x) :
    lookupName name (updateName name b l) = some b := by
  induction l with
  | nil => simp [lookupName] at h
  | cons hd tl ih =>
      obtain ⟨n, c⟩ := hd
      by_cases hn : n = name
      · simp [lookupName, updateName, hn]
      · simp only [lookupName, updateName, hn, if_false] at h ⊢
        exact ih h

theorem lookupName_removeName {β : Type} (name : String) (l : List (String × β)) :
    lookupName name (removeName name l) = none := by
  induction l with
  | nil => simp [removeName, lookupName]
  | cons hd tl ih =>
      obtain ⟨n, c⟩ := hd
      by_cases hn : n = name
      · simp [removeName, hn, ih]
      · simp [removeName, lookupName, hn, ih]

theorem map_fst_updateName {β : Type} (name : String) (b : β) (l : List (String × β)) :
    (updateName name b l).map Prod.fst = l.map Prod.fst := by
  induction l with
  | nil => rfl
  | cons hd tl ih =>
      obtain ⟨n, c⟩ := hd
      by_cases hn : n = name <;> simp [updateName, hn, ih]

theorem run_task_slot_already_running (env : Env) (s : RunnerState) (name : String)
    (args : List Nat) (kwargs : List (Key × Nat)) (t : Task)
    (h : lookupName name s.runningTasks = some t) :
    run_task_slot env s name args kwargs
      = ({ s with log := RunnerError.alreadyRunning name :: s.log }, [],
         some (RunnerError.alreadyRunning name)) := by
  simp [run_task_slot, init_task, h]

theorem set_task_arguments_err (task : Task) (args : List Nat)
    (kwargs : List (Key × Nat)) (t : Task) (e : RunnerError)
    (h : set_task_arguments task args kwargs = (t, some e)) :
    e = RunnerError.kwargsKeysNotStr := by
  unfold set_task_arguments at h
  by_cases hk : allStrKeys kwargs <;> simp [hk] at h
  exact h.2.symm

theorem activate_connect_err (env : Env) (name : String) (task t : Task)
    (acts : List String) (e : RunnerError)
    (h : activate_connect_task_modules env name task = (t, acts, some e)) :
    ∃ m, e = RunnerError.connectionError m := by
  unfold activate_connect_task_modules at h
  revert h
  rcases connect_loop env.moduleManager (env.connectSpec name) with ⟨targets, acts2, _ | m⟩
  · intro h
    simp at h
  · intro h
    simp at h
    exact ⟨m, h.2.2.symm⟩

theorem move_task_err (env : Env) (name : String) (task t : Task) (e : RunnerError)
    (h : move_task_into_thread env name task = (t, some e)) :
    e = RunnerError.threadCreationFailure name := by
  unfold move_task_into_thread at h
  by_cases ht : env.threadAvailable <;> simp [ht] at h
  exact h.2.symm

theorem init_task_err_not_running (s : RunnerState) (name : String) (e : RunnerError)
    (h : lookupName name s.runningTasks = none)
    (he : init_task s name = Except.error e) :
    e = RunnerError.unknownTask name := by
  unfold init_task at he
  rw [h] at he
  simp at he
  revert he
  rcases lookupName name s.configuredTaskTypes with _ | tt
  · intro he
    simp at he
    exact he.symm
  · intro he
    simp at he

theorem run_task_slot_cases (env : Env) (s : RunnerState) (name : String)
    (args : List Nat) (kwargs : List (Key × Nat)) :
    (∃ e, init_task s name = Except.error e ∧
        run_task_slot env s name args kwargs
          = ({ s with log := e :: s.log }, [], some e)) ∨
    (run_task_slot env s name args kwargs
        = ({ s with log := RunnerError.kwargsKeysNotStr :: s.log }, [],
           some RunnerError.kwargsKeysNotStr)) ∨
    (∃ m acts, run_task_slot env s name args kwargs
        = ({ s with log := RunnerError.connectionError m :: s.log,
                    activatedModules := s.activatedModules ++ acts }, [],
           some (RunnerError.connectionError m))) ∨
    (∃ acts, run_task_slot env s name args kwargs
        = ({ s with log := RunnerError.threadCreationFailure name :: s.log,
                    activatedModules := s.activatedModules ++ acts }, [],
           some (RunnerError.threadCreationFailure name))) ∨
    (∃ task acts, run_task_slot env s name args kwargs
        = ({ s with runningTasks := (name, task) :: s.runningTasks,
                    activatedModules := s.activatedModules ++ acts },
           [Event.taskStarted name], none)) := by
  unfold run_task_slot
  split
  · rename_i e heq
    exact Or.inl ⟨e, heq, rfl⟩
  · rename_i task0 heq
    split
    · rename_i fst e heq2
      have he := set_task_arguments_err task0 args kwargs fst e heq2
      subst he
      exact Or.inr (Or.inl rfl)
    · rename_i task1 heq2
      split
      · rename_i fst acts e heq3
        obtain ⟨m, hm2⟩ := activate_connect_err env name task1 fst acts e heq3
        subst hm2
        exact Or.inr (Or.inr (Or.inl ⟨m, acts, rfl⟩))
      · rename_i task2 acts heq3
        split
        · rename_i fst e heq4
          have he := move_task_err env name task2 fst e heq4
          subst he
          exact Or.inr (Or.inr (Or.inr (Or.inl ⟨acts, rfl⟩)))
        · rename_i task3 heq4
          exact Or.inr (Or.inr (Or.inr (Or.inr
            ⟨connect_task_signals task3, acts, rfl⟩)))

theorem run_task_slot_ok_shape (env : Env) (s : RunnerState) (name : String)
    (args : List Nat) (kwargs : List (Key × Nat))
    (h : (run_task_slot env s name args kwargs).2.2 = none) :
    ∃ task acts,
      run_task_slot env s name args kwargs
        = ({ s with runningTasks := (name, task) :: s.runningTasks,
                    activatedModules := s.activatedModules ++ acts },
           [Event.taskStarted name], none) := by
  rcases run_task_slot_cases env s name args kwargs with
    ⟨e, he1, he⟩ | he | ⟨m, acts, he⟩ | ⟨acts, he⟩ | ⟨task, acts, he⟩
  · rw [he] at h; simp at h
  · rw [he] at h; simp at h
  · rw [he] at h; simp at h
  · rw [he] at h; simp at h
  · exact ⟨task, acts, he⟩

theorem run_task_slot_no_already (env : Env) (s : RunnerState) (name : String)
    (args : List Nat) (kwargs : List (Key × Nat))
    (h : lookupName name s.runningTasks = none) :
    (run_task_slot env s name args kwargs).2.2
      ≠ some (RunnerError.alreadyRunning name) := by
  rcases run_task_slot_cases env s name args kwargs with
    ⟨e, he1, he⟩ | he | ⟨m, acts, he⟩ | ⟨acts, he⟩ | ⟨task, acts, he⟩ <;> rw [he]
  · have he2 := init_task_err_not_running s name e h he1
    subst he2
    simp
  · simp
  · simp
  · simp
  · simp

theorem connect_loop_fails (mm : String → Option String)
    (done rest : List (String × String)) (role m : String)
    (h5 : ∀ p ∈ done, (mm p.2).isSome = true) (h6 : mm m = none) :
    ∃ targets, connect_loop mm (done ++ (role, m) :: rest)
        = (targets, done.map Prod.snd, some m) := by
  induction done with
  | nil => exact ⟨[], by simp [connect_loop, h6]⟩
  | cons hd tl ih =>
      obtain ⟨c, mn⟩ := hd
      obtain ⟨inst, hinst⟩ := Option.isSome_iff_exists.mp (h5 (c, mn) (by simp))
      obtain ⟨targets, htgt⟩ := ih fun p hp => h5 p (by simp [hp])
      exact ⟨(c, inst) :: targets, by simp [connect_loop, hinst, htgt]⟩

theorem on_activate_loop_ok (configs : List (String × Option TaskType)) :
    ∀ acc result, on_activate_loop acc configs = Except.ok result →
      result.map Prod.fst = acc.map Prod.fst ++ configs.map Prod.fst ∧
      ((∀ p ∈ acc, p.2.isModuleTask = true) → ∀ p ∈ result, p.2.isModuleTask = true) ∧
      ((acc.map Prod.fst).Nodup → (result.map Prod.fst).Nodup) ∧
      (∀ q ∈ configs, ∀ tt, q.2 = some tt → tt.isModuleTask = true) := by
  induction configs with
  | nil =>
      intro acc result h
      simp [on_activate_loop] at h
      subst h
      simp
  | cons hd tl ih =>
      intro acc result h
      obtain ⟨name, res⟩ := hd
      rcases res with _ | tt
      · simp [on_activate_loop] at h
        revert h
        split
        · intro h; simp at h
        · intro h; simp at h
      · simp only [on_activate_loop] at h
        by_cases hk : (lookupName name acc).isSome = true
        · rw [if_pos hk] at h
          simp at h
        · rw [if_neg hk] at h
          by_cases hm : tt.isModuleTask = true
          · rw [if_pos hm] at h
            obtain ⟨e1, e2, e3, e4⟩ := ih (acc ++ [(name, tt)]) result h
            have hnotmem : name ∉ acc.map Prod.fst := by
              intro hmem
              exact hk ((lookupName_isSome_iff name acc).mpr hmem)
            refine ⟨?_, ?_, ?_, ?_⟩
            · rw [e1]; simp
            · intro hacc p hp
              refine e2 ?_ p hp
              intro q hq
              rcases List.mem_append.mp hq with hq1 | hq2
              · exact hacc q hq1
              · simp at hq2
                rw [hq2]
                exact hm
            · intro hnd
              refine e3 ?_
              rw [List.map_append]
              simp [List.nodup_append, hnd, hnotmem]
            · intro q hq tt2 htt2
              rcases List.mem_cons.mp hq with hq1 | hq2
              · rw [hq1] at htt2
                simp at htt2
                rw [← htt2]
                exact hm
              · exact e4 q hq2 tt2 htt2
          · rw [if_neg hm] at h
            simp at h

/-- C1: for every task name at most one RunningTaskEntry is live at an
instant.  A start request for a name that already has an entry in
self._running_tasks is rejected with AlreadyRunningError, leaving the
running-task mapping unchanged and emitting no event; consequently, after a
successful serialized start of a name, a second start of the same name is
rejected rather than succeeding, so no two runs of one name both succeed. -/
theorem c1_at_most_one_running_entry (env env2 : Env) (s : RunnerState)
    (name : String) (args args2 : List Nat) (kwargs kwargs2 : List (Key × Nat)) :
    (∀ task, lookupName name s.runningTasks = some task →
        run_task_slot env s name args kwargs
          = ({ s with log := RunnerError.alreadyRunning name :: s.log }, [],
             some (RunnerError.alreadyRunning name))) ∧
    ((run_task_slot env s name args kwargs).2.2 = none →
        (run_task_slot env2 (run_task_slot env s name args kwargs).1 name args2
            kwargs2).2.2 = some (RunnerError.alreadyRunning name) ∧
        (run_task_slot env2 (run_task_slot env s name args kwargs).1 name args2
            kwargs2).1.runningTasks
          = (run_task_slot env s name args kwargs).1.runningTasks) := by
  constructor
  · intro task h
    exact run_task_slot_already_running env s name args kwargs task h
  · intro h
    obtain ⟨task, acts, hshape⟩ := run_task_slot_ok_shape env s name args kwargs h
    rw [hshape]
    have hl : lookupName name
        ({ s with runningTasks := (name, task) :: s.runningTasks,
                  activatedModules := s.activatedModules ++ acts } :
          RunnerState).runningTasks = some task := by
      simp [lookupName]
    rw [run_task_slot_already_running env2 _ name args2 kwargs2 task hl]
    exact ⟨rfl, rfl⟩

/-- Witness for C1: a concrete successful start followed by a rejected one. -/
theorem c1_witness :
    (run_task_slot envOk sIdle "t" [] []).2.2 = none ∧
    (run_task_slot envOk (run_task_slot envOk sIdle "t" [] []).1 "t" [] []).2.2
      = some (RunnerError.alreadyRunning "t") :=
  ⟨by decide,
   ((c1_at_most_one_running_entry envOk envOk sIdle "t" [] [] [] []).2
      (by decide)).1⟩

/-- C2: for a completed run of a live task, the completion sequence emits
sigTaskFinished with the task result and success flag exactly once, strictly
after disconnect_modules and strictly after the removal of the
RunningTaskEntry; afterwards the name has no entry and a subsequent start of
the same name can no longer fail with AlreadyRunningError. -/
theorem c2_finished_once_after_cleanup (s : RunnerState) (name : String)
    (task : Task) (h : lookupName name s.runningTasks = some task) :
    (∃ front back,
        (completion_sequence s name).2
          = front ++ Action.emitFinished name task.result task.success :: back ∧
        Action.disconnectModules name ∈ front ∧
        Action.removeEntry name ∈ front ∧
        (∀ a ∈ front, isEmitFinished a = false) ∧
        (∀ a ∈ back, isEmitFinished a = false)) ∧
    lookupName name (completion_sequence s name).1.runningTasks = none ∧
    ∀ env2 args2 kwargs2,
      (run_task_slot env2 (completion_sequence s name).1 name args2 kwargs2).2.2
        ≠ some (RunnerError.alreadyRunning name) := by
  have hl2 : lookupName name (task_finished_callback s name).1.runningTasks
      = some ({ task with signalsConnected := false, connectedModules := [] }) := by
    simp only [task_finished_callback, h]
    exact lookupName_updateName name _ task s.runningTasks h
  have htr1 : (task_finished_callback s name).2
      = [Action.acquireLock, Action.disconnectSignals name,
         Action.disconnectModules name, Action.quitThread name,
         Action.joinThread name, Action.releaseLock] := by
    simp [task_finished_callback, h]
  have htr2 : (thread_finished_callback (task_finished_callback s name).1 name).2
      = [Action.acquireLock, Action.removeEntry name,
         Action.emitFinished name task.result task.success, Action.releaseLock] := by
    simp [thread_finished_callback, hl2]
  have hstate : (completion_sequence s name).1.runningTasks
      = removeName name (task_finished_callback s name).1.runningTasks := by
    simp [completion_sequence, thread_finished_callback, hl2]
  have hnone : lookupName name (completion_sequence s name).1.runningTasks = none := by
    rw [hstate]
    exact lookupName_removeName name _
  refine ⟨⟨[Action.acquireLock, Action.disconnectSignals name,
      Action.disconnectModules name, Action.quitThread name, Action.joinThread name,
      Action.releaseLock, Action.acquireLock, Action.removeEntry name],
      [Action.releaseLock], ?_, ?_, ?_, ?_, ?_⟩, hnone, ?_⟩
  · simp [completion_sequence, htr1, htr2]
  · simp
  · simp
  · intro a ha
    fin_cases ha <;> rfl
  · intro a ha
    fin_cases ha
    rfl
  · intro env2 args2 kwargs2
    exact run_task_slot_no_already env2 _ name args2 kwargs2 hnone

/-- Witness for C2 at a concrete running task. -/
theorem c2_witness :
    lookupName "t" sRun.runningTasks = some taskEx ∧
    lookupName "t" (completion_sequence sRun "t").1.runningTasks = none :=
  ⟨rfl, (c2_finished_once_after_cleanup sRun "t" taskEx rfl).2.1⟩

/-- C3 counterexample: a run call whose kwargs is a mapping with a non-str
key does not fail synchronously as the claim states: run_task accepts it and
returns the queued start request. -/
theorem c3_counterexample :
    run_task "t" (PyArgs.iterable []) (PyKwargs.mapping [(Key.other 0, 0)])
      = Except.ok ("t", [], [(Key.other 0, 0)]) := rfl

/-- C3 (amended): non-iterable args and non-mapping kwargs fail synchronously
in run_task during tuple and dict conversion; a mapping kwargs with non-str
keys passes run_task, and the ArgumentError is raised asynchronously in the
start slot, before any resource connection is attempted (no module is
activated), with no state change beyond the log entry and no event. -/
theorem c3_argument_validation (env : Env) (s : RunnerState) (name : String)
    (xs : List Nat) (kw : List (Key × Nat)) (kwargs : PyKwargs)
    (h1 : lookupName name s.runningTasks = none)
    (h2 : (lookupName name s.configuredTaskTypes).isSome = true)
    (h3 : allStrKeys kw = false) :
    run_task name PyArgs.notIterable kwargs
      = Except.error RunnerError.argsNotIterable ∧
    run_task name (PyArgs.iterable xs) PyKwargs.notMapping
      = Except.error RunnerError.kwargsNotMapping ∧
    run_task_slot env s name xs kw
      = ({ s with log := RunnerError.kwargsKeysNotStr :: s.log }, [],
         some RunnerError.kwargsKeysNotStr) := by
  refine ⟨rfl, rfl, ?_⟩
  obtain ⟨tt, htt⟩ := Option.isSome_iff_exists.mp h2
  simp [run_task_slot, init_task, set_task_arguments, h1, htt, h3]

/-- Witness for amended C3 at concrete inputs. -/
theorem c3_witness :
    lookupName "t" sIdle.runningTasks = none ∧
    (lookupName "t" sIdle.configuredTaskTypes).isSome = true ∧
    allStrKeys [(Key.other 0, 0)] = false ∧
    run_task_slot envOk sIdle "t" [] [(Key.other 0, 0)]
      = ({ sIdle with log := [RunnerError.kwargsKeysNotStr] }, [],
         some RunnerError.kwargsKeysNotStr) :=
  ⟨rfl, rfl, rfl,
   (c3_argument_validation envOk sIdle "t" [] [(Key.other 0, 0)]
      PyKwargs.notMapping rfl rfl rfl).2.2⟩

/-- C4 counterexample: in the finished-task callback for a live task, the
join of the worker thread (position 4 of the action trace) happens while the
registry lock is held (lock depth 1), refuting the claim that the join is
never performed while holding the lock. -/
theorem c4_counterexample :
    (task_finished_callback sRun "t").2.get? 4 = some (Action.joinThread "t") ∧
    0 < lockDepthAt (task_finished_callback sRun "t").2 4 := by
  constructor
  · rfl
  · decide

/-- C4 (amended): the finished-task callback quits and joins the worker
thread while holding the registry lock: for every live entry, the join
action occurs in the callback trace at a point of positive lock depth. -/
theorem c4_join_while_lock_held (s : RunnerState) (name : String) (task : Task)
    (h : lookupName name s.runningTasks = some task) :
    (task_finished_callback s name).2.get? 4 = some (Action.joinThread name) ∧
    0 < lockDepthAt (task_finished_callback s name).2 4 := by
  have htr : (task_finished_callback s name).2
      = [Action.acquireLock, Action.disconnectSignals name,
         Action.disconnectModules name, Action.quitThread name,
         Action.joinThread name, Action.releaseLock] := by
    simp [task_finished_callback, h]
  rw [htr]
  constructor
  · rfl
  · simp [lockDepthAt, lockDelta]

/-- Witness for amended C4 at a concrete running task. -/
theorem c4_witness :
    lookupName "u" sRun2.runningTasks = some ({ taskEx with result := 3 }) ∧
    (task_finished_callback sRun2 "u").2.get? 4 = some (Action.joinThread "u") ∧
    0 < lockDepthAt (task_finished_callback sRun2 "u").2 4 :=
  ⟨rfl,
   (c4_join_while_lock_held sRun2 "u" ({ taskEx with result := 3 }) rfl).1,
   (c4_join_while_lock_held sRun2 "u" ({ taskEx with result := 3 }) rfl).2⟩

/-- C5: when resource connection fails partway through the connect spec, the
except block disconnects the task (no modules stay bound on it), the error
is a ConnectionError that lands in the diagnostic log and not in the
synchronous run_task call (which already returned the queued request), no
RunningTaskEntry is created, no event is emitted, and exactly the modules
before the failing one were activated. -/
theorem c5_partial_connection_cleanup (env : Env) (s : RunnerState)
    (name : String) (xs : List Nat) (kw : List (Key × Nat))
    (done rest : List (String × String)) (role m : String)
    (h1 : lookupName name s.runningTasks = none)
    (h2 : (lookupName name s.configuredTaskTypes).isSome = true)
    (h3 : allStrKeys kw = true)
    (h4 : env.connectSpec name = done ++ (role, m) :: rest)
    (h5 : ∀ p ∈ done, (env.moduleManager p.2).isSome = true)
    (h6 : env.moduleManager m = none) :
    (∀ task : Task,
        (activate_connect_task_modules env name task).1.connectedModules = [] ∧
        (activate_connect_task_modules env name task).2.2
          = some (RunnerError.connectionError m)) ∧
    run_task_slot env s name xs kw
      = ({ s with log := RunnerError.connectionError m :: s.log,
                  activatedModules := s.activatedModules ++ done.map Prod.snd },
         [], some (RunnerError.connectionError m)) ∧
    run_task name (PyArgs.iterable xs) (PyKwargs.mapping kw)
      = Except.ok (name, xs, kw) := by
  obtain ⟨targets, htgt⟩ := connect_loop_fails env.moduleManager done rest role m h5 h6
  have hact : ∀ task : Task,
      activate_connect_task_modules env name task
        = ({ task with connectedModules := [] }, done.map Prod.snd,
           some (RunnerError.connectionError m)) := by
    intro task
    simp [activate_connect_task_modules, h4, htgt]
  refine ⟨fun task => by rw [hact task]; exact ⟨rfl, rfl⟩, ?_, rfl⟩
  obtain ⟨tt, htt⟩ := Option.isSome_iff_exists.mp h2
  simp [run_task_slot, init_task, set_task_arguments, h1, htt, h3, hact]

/-- Witness for C5: the spec scenario, three declared modules with the module
manager failing on the second. -/
theorem c5_witness :
    envC5.connectSpec "c" = [("r1", "m1")] ++ ("r2", "m2") :: [("r3", "m3")] ∧
    envC5.moduleManager "m2" = none ∧
    run_task_slot envC5 sIdle "c" [] []
      = ({ sIdle with log := [RunnerError.connectionError "m2"],
                      activatedModules := ["m1"] }, [],
         some (RunnerError.connectionError "m2")) :=
  ⟨rfl, rfl,
   (c5_partial_connection_cleanup envC5 sIdle "c" [] [] [("r1", "m1")]
      [("r3", "m3")] "r2" "m2" rfl rfl rfl rfl (by decide) rfl).2.1⟩

/-- C6: a start request naming an unconfigured task yields UnknownTaskError,
creates no RunningTaskEntry, emits no event, and changes nothing but the
diagnostic log. -/
theorem c6_unknown_task (env : Env) (s : RunnerState) (name : String)
    (xs : List Nat) (kw : List (Key × Nat))
    (h1 : lookupName name s.configuredTaskTypes = none)
    (h2 : lookupName name s.runningTasks = none) :
    run_task_slot env s name xs kw
      = ({ s with log := RunnerError.unknownTask name :: s.log }, [],
         some (RunnerError.unknownTask name)) := by
  simp [run_task_slot, init_task, h1, h2]

/-- Witness for C6 at a name absent from the configured types. -/
theorem c6_witness :
    lookupName "ghost" sIdle.configuredTaskTypes = none ∧
    lookupName "ghost" sIdle.runningTasks = none ∧
    run_task_slot envOk sIdle "ghost" [] []
      = ({ sIdle with log := [RunnerError.unknownTask "ghost"] }, [],
         some (RunnerError.unknownTask "ghost")) :=
  ⟨rfl, rfl, c6_unknown_task envOk sIdle "ghost" [] [] rfl rfl⟩

/-- C7: interrupt_task raises NotRunningError exactly when the name has no
RunningTaskEntry (leaving the state untouched); on a live entry it forwards
the interrupt request to the stored task instance without raising, and in
both cases the set of running names is unchanged. -/
theorem c7_interrupt_iff_not_running (s : RunnerState) (name : String) :
    ((interrupt_task s name).2 = some (RunnerError.notRunning name)
        ↔ lookupName name s.runningTasks = none) ∧
    (lookupName name s.runningTasks = none → (interrupt_task s name).1 = s) ∧
    (∀ task, lookupName name s.runningTasks = some task →
        (interrupt_task s name).2 = none ∧
        lookupName name (interrupt_task s name).1.runningTasks
          = some ({ task with interruptRequested := true })) ∧
    (interrupt_task s name).1.runningTasks.map Prod.fst
      = s.runningTasks.map Prod.fst := by
  rcases hl : lookupName name s.runningTasks with _ | task
  · simp [interrupt_task, hl]
  · refine ⟨?_, ?_, ?_, ?_⟩
    · simp [interrupt_task, hl]
    · intro hn
      simp at hn
    · intro task2 h2
      have h2e : task2 = task := by
        injection h2 with h2i
        exact h2i.symm
      subst h2e
      constructor
      · simp [interrupt_task, hl]
      · simp only [interrupt_task, hl]
        exact lookupName_updateName name _ task2 s.runningTasks hl
    · simp only [interrupt_task, hl]
      exact map_fst_updateName name _ s.runningTasks

/-- Witness for C7 at a concrete running task. -/
theorem c7_witness :
    (interrupt_task sRun2 "u").2 = none ∧
    lookupName "u" (interrupt_task sRun2 "u").1.runningTasks
      = some ({ taskEx with result := 3, interruptRequested := true }) :=
  (c7_interrupt_iff_not_running sRun2 "u").2.2.1 ({ taskEx with result := 3 }) rfl

/-- C8: the state-changed relay re-publishes exactly the received state value
tagged with the task name, as a single sigTaskStateChanged event with no
transformation of the state value. -/
theorem c8_state_changed_relay (state name : String) :
    task_state_changed_callback state name = [Event.taskStateChanged name state] := rfl

/-- C9: on_activate builds the registry only when every configured name is
distinct and every resolved type passes the ModuleTask subclass check; on
success the registry maps exactly the configured names, in order, to
verified task types.  By contraposition, a repeated name or a non-ModuleTask
resolution makes on_activate fail with an error. -/
theorem c9_registry_build (configs : List (String × Option TaskType))
    (result : List (String × TaskType))
    (h : on_activate configs = Except.ok result) :
    (configs.map Prod.fst).Nodup ∧
    (∀ q ∈ configs, ∀ tt, q.2 = some tt → tt.isModuleTask = true) ∧
    result.map Prod.fst = configs.map Prod.fst ∧
    (∀ p ∈ result, p.2.isModuleTask = true) := by
  obtain ⟨e1, e2, e3, e4⟩ := on_activate_loop_ok configs [] result h
  have hnames : result.map Prod.fst = configs.map Prod.fst := by simpa using e1
  have hnd := e3 (by simp)
  rw [hnames] at hnd
  exact ⟨hnd, e4, hnames, e2 (by simp)⟩

/-- Witness for C9 at a concrete two-task configuration. -/
theorem c9_witness :
    on_activate cfgEx = Except.ok [("a", ttOk), ("b", ttOk)] ∧
    (cfgEx.map Prod.fst).Nodup ∧
    [("a", ttOk), ("b", ttOk)].map Prod.fst = cfgEx.map Prod.fst :=
  ⟨rfl, (c9_registry_build cfgEx [("a", ttOk), ("b", ttOk)] rfl).1,
   (c9_registry_build cfgEx [("a", ttOk), ("b", ttOk)] rfl).2.2.1⟩

/-- C10: the finished and thread-finished callbacks for a name with no
RunningTaskEntry are no-ops: state is unchanged and the trace holds only the
lock acquire and release, so nothing is disconnected, no thread is stopped,
no entry is removed and no finished event is emitted. -/
theorem c10_stale_callbacks_noop (s : RunnerState) (name : String)
    (h : lookupName name s.runningTasks = none) :
    task_finished_callback s name
      = (s, [Action.acquireLock, Action.releaseLock]) ∧
    thread_finished_callback s name
      = (s, [Action.acquireLock, Action.releaseLock]) := by
  constructor
  · simp [task_finished_callback, h]
  · simp [thread_finished_callback, h]

/-- Witness for C10 at a name that is not running. -/
theorem c10_witness :
    lookupName "ghost" sIdle.runningTasks = none ∧
    task_finished_callback sIdle "ghost"
      = (sIdle, [Action.acquireLock, Action.releaseLock]) ∧
    thread_finished_callback sIdle "ghost"
      = (sIdle, [Action.acquireLock, Action.releaseLock]) :=
  ⟨rfl, (c10_stale_callbacks_noop sIdle "ghost" rfl).1,
   (c10_stale_callbacks_noop sIdle "ghost" rfl).2⟩

end Taskrunner
